import Mathlib

/-!
# `api/process.js` — the image-to-todo request handler

A shallow embedding of the single exported function `handler(req, res)` of
`api/process.js`, and theorems about the HTTP response it emits.

The handler is straight-line JavaScript with early returns and one
`try { … } catch`.  The embedding keeps that shape:

* JavaScript values are the inductive type `JSValue`;
* a `throw` is the `error` side of `Except String _`, the string being the
  `message` of the thrown error (the only part the `catch` block reads);
* everything the handler obtains from its surroundings — the environment
  variable, `fetch`, `JSON.parse`, the wording of the engine's `TypeError`s —
  is a field of `Host`, so every theorem holds for every host;
* the result is the response written to `res` together with the list of
  outbound calls that were issued; the body of `res` is `pending` until
  `end()` or `json(…)` sends the response.
-/

namespace AliyunTodo

/-! ## JavaScript values -/

/-- A JavaScript Number, an IEEE-754 binary64 given by its sign bit, its biased
exponent field and its fraction field. -/
structure JSNumber where
  sign : Bool
  expo : Nat
  frac : Nat

/-- The Number is `+0`, `-0` or `NaN`: the three Numbers that are falsy. -/
def JSNumber.isZeroOrNaN (n : JSNumber) : Bool :=
  (n.expo == 0 && n.frac == 0) || (n.expo == 2047 && n.frac != 0)

/-- The JavaScript values the handler can meet: `undefined`, and the values
`JSON.parse` builds.  An object is the list of its own properties, each key
once; a read takes the first entry with the key. -/
inductive JSValue where
  | undefined
  | null
  | bool (b : Bool)
  | num (n : JSNumber)
  | str (s : String)
  | arr (items : List JSValue)
  | obj (props : List (String × JSValue))

open JSValue

/-- ToBoolean: what `if (v)`, `!v`, `v && …` and `v || …` test. -/
def truthy : JSValue → Bool
  | .undefined => false
  | .null => false
  | .bool b => b
  | .num n => !n.isZeroOrNaN
  | .str s => s != ""
  | .arr _ => true
  | .obj _ => true

/-- The value is a JavaScript string. -/
def JSValue.isString : JSValue → Bool
  | .str _ => true
  | _ => false

/-- The value is `null` or `undefined`. -/
def JSValue.isNullish : JSValue → Bool
  | .undefined => true
  | .null => true
  | _ => false

/-- The expression `a || b`. -/
def jsOr (a b : JSValue) : JSValue :=
  if truthy a then a else b

/-! ## The host -/

/-- The places where the engine itself raises a `TypeError`. -/
inductive Fault where
  /-- The pattern `const { prop } = source` with `source` null or undefined. -/
  | destructure (prop : String) (source : JSValue)
  /-- The access `source.prop` with `source` null or undefined. -/
  | readProp (prop : String) (source : JSValue)
  /-- The loop `for (… of source)` with `source` not iterable. -/
  | notIterable (source : JSValue)
  /-- The call `receiver.prop(…)` with `receiver.prop` not a function. -/
  | notCallable (prop : String) (receiver : JSValue)

/-- One call of `fetch`: the URL, and the method, headers and body of its
second argument.  `payload` is the value handed to `JSON.stringify`. -/
structure OutboundRequest where
  url : String
  method : String
  headers : List (String × String)
  payload : JSValue

/-- What `await fetch(…)` gives: a rejection (its error's `message`), or a
response with its `status` and its body text. -/
inductive FetchOutcome where
  | rejected (message : String)
  | responded (status : Nat) (body : String)

/-- Everything the handler takes from its surroundings. -/
structure Host where
  /-- The value of `process.env.ALIYUN_API_KEY`, `none` for `undefined`. -/
  apiKey : Option String
  /-- The upstream service, as seen through `fetch`. -/
  fetch : OutboundRequest → FetchOutcome
  /-- The function `JSON.parse` (also behind `Response.json()`): the value, or
  the `message` of the `SyntaxError` it throws. -/
  jsonParse : String → Except String JSValue
  /-- The `message` the engine gives to a `TypeError`. -/
  typeErrorMessage : Fault → String

/-- The `ok` getter of a fetch `Response`: the status is in the range 200–299. -/
def statusOk (status : Nat) : Bool :=
  decide (200 ≤ status) && decide (status ≤ 299)

/-! ## Requests and responses -/

/-- The part of `req` the handler reads. -/
structure Request where
  method : String
  body : JSValue

/-- The body of `res`: still `pending` while nothing has been sent and the
response is open, `empty` once it has been ended without a body (`res.end()`),
or the value sent and ended with through `res.json(v)`. -/
inductive Body where
  | pending
  | empty
  | json (v : JSValue)

/-- The state of `res`. -/
structure Response where
  headers : List (String × String)
  status : Nat
  body : Body

/-- The response writer before the handler touches it: no header set, the
default status code 200, and nothing sent. -/
def Response.fresh : Response :=
  { headers := [], status := 200, body := .pending }

/-- The call `res.setHeader(name, value)`. -/
def Response.setHeader (res : Response) (name value : String) : Response :=
  { res with headers := res.headers ++ [(name, value)] }

/-- The call `res.status(code).end()`. -/
def Response.statusEnd (res : Response) (code : Nat) : Response :=
  { res with status := code, body := .empty }

/-- The call `res.status(code).json(v)`. -/
def Response.statusJson (res : Response) (code : Nat) (v : JSValue) : Response :=
  { res with status := code, body := .json v }

/-- The response, and the calls of `fetch` made on the way to it. -/
structure Outcome where
  response : Response
  calls : List OutboundRequest

/-! ## Property access -/

/-- The own property `k` of a value that is neither null nor undefined, for
the names this handler reads (`image`, `output`, `choices`, `message`,
`content`, `text`, `title`, `location`, `time`, `requirements`): none of them
is defined on a prototype of a JSON value, so only an object can have one. -/
def ownProp (v : JSValue) (k : String) : JSValue :=
  match v with
  | .obj props => (props.lookup k).getD .undefined
  | _ => .undefined

/-- The access `v.k`: a `TypeError` on null and undefined. -/
def getProp (h : Host) (v : JSValue) (k : String) : Except String JSValue :=
  match v with
  | .undefined => .error (h.typeErrorMessage (.readProp k .undefined))
  | .null => .error (h.typeErrorMessage (.readProp k .null))
  | w => .ok (ownProp w k)

/-- The access `v[0]`: the first element of an array, the property `"0"` of
an object, the first character of a string. -/
def getIndex0 (h : Host) (v : JSValue) : Except String JSValue :=
  match v with
  | .undefined => .error (h.typeErrorMessage (.readProp "0" .undefined))
  | .null => .error (h.typeErrorMessage (.readProp "0" .null))
  | .arr items => .ok (items.head?.getD .undefined)
  | .obj props => .ok ((props.lookup "0").getD .undefined)
  | .str s => .ok ((s.data.head?.map fun c => JSValue.str (String.mk [c])).getD .undefined)
  | _ => .ok .undefined

/-- The pattern `const { image } = body`. -/
def destructureImage (h : Host) (body : JSValue) : Except String JSValue :=
  match body with
  | .undefined => .error (h.typeErrorMessage (.destructure "image" .undefined))
  | .null => .error (h.typeErrorMessage (.destructure "image" .null))
  | w => .ok (ownProp w "image")

/-- The values a `for (const item of v)` loop visits: the elements of an
array, the characters of a string; anything else is not iterable. -/
def iterate (h : Host) (v : JSValue) : Except String (List JSValue) :=
  match v with
  | .arr items => .ok items
  | .str s => .ok (s.data.map fun c => JSValue.str (String.mk [c]))
  | w => .error (h.typeErrorMessage (.notIterable w))

/-! ## The regular expression -/

/-- The tail `[\s\S]*\}` of the pattern, tried at the front of `cs`: the star
is greedy, so it first takes a character and goes on, and only when that
fails does it stop and ask for the closing brace here. -/
def matchTail : List Char → Option (List Char)
  | [] => none
  | c :: cs =>
    match matchTail cs with
    | some m => some (c :: m)
    | none => if c = '}' then some [c] else none

/-- The whole pattern, tried at the front of `cs`. -/
def matchHere : List Char → Option (List Char)
  | [] => none
  | c :: cs => if c = '{' then (matchTail cs).map (c :: ·) else none

/-- The call `text.match(/\{[\s\S]*\}/)`, giving `jsonMatch[0]`: the match
at the leftmost position that has one. -/
def regexMatch : List Char → Option (List Char)
  | [] => none
  | c :: cs =>
    match matchHere (c :: cs) with
    | some m => some m
    | none => regexMatch cs

/-! ## The handler -/

/-- The instruction sent along with the image. -/
def extractionPrompt : String :=
  "请从这张图片中精确提取以下信息，并以JSON格式返回：\n1. title: 活动标题\n2. content: 主要内容\n3. location: 活动地点\n4. time: 活动时间（如果是日期时间请转换为标准格式）\n5. requirements: 活动要求\n\n如果某项信息不存在，请设置为空字符串。确保返回纯JSON格式，不要有其他文字。示例：\x7b\"title\": \"会议\", \"content\": \"项目讨论\", \"location\": \"会议室A\", \"time\": \"2024-01-20 14:00\", \"requirements\": \"携带资料\"\x7d"

/-- The arguments of the one `fetch` call (lines 41–69). -/
def upstreamRequest (apiKey : String) (image : JSValue) : OutboundRequest :=
  { url := "https://dashscope.aliyuncs.com/api/v1/services/aigc/multimodal-generation/generation"
    method := "POST"
    headers :=
      [("Authorization", "Bearer " ++ apiKey),
       ("Content-Type", "application/json"),
       ("X-DashScope-Async", "enable")]
    payload :=
      .obj [("model", .str "qwen-vl-plus"),
            ("input", .obj [("messages", .arr [.obj [("role", .str "user"),
              ("content", .arr [.obj [("image", image)],
                                .obj [("text", .str extractionPrompt)]])]])]),
            ("parameters", .obj [("result_format", .str "message")])] }

/-- The expression `x && f x`: when `x` is falsy the right operand is not
evaluated and the value is `x`. -/
def jsAnd (x : Except String JSValue) (f : JSValue → Except String JSValue) :
    Except String JSValue :=
  match x with
  | .error m => .error m
  | .ok v => if truthy v then f v else .ok v

/-- The condition of the `if` of lines 84–88, a chain of five `&&` operands:
`resultData.output`, `….choices`, `….choices[0]`, `….message`, `….content`.
When the value is truthy it is `resultData.output.choices[0].message.content`. -/
def contentGuard (h : Host) (resultData : JSValue) : Except String JSValue :=
  jsAnd (getProp h resultData "output") fun output =>
  jsAnd (getProp h output "choices") fun choices =>
  jsAnd (getIndex0 h choices) fun choice =>
  jsAnd (getProp h choice "message") fun message =>
  getProp h message "content"

/-- The loop of lines 93–98 over the items still to visit: the value left in
`extractedText`, which starts as `''`. -/
def firstText (h : Host) : List JSValue → Except String JSValue
  | [] => .ok (.str "")
  | item :: rest =>
    match getProp h item "text" with
    | .error m => .error m
    | .ok t => if truthy t then .ok t else firstText h rest

/-- Lines 82–99: the value of `extractedText` after the `if`. -/
def extractText (h : Host) (resultData : JSValue) : Except String JSValue :=
  match contentGuard h resultData with
  | .error m => .error m
  | .ok content =>
    if truthy content then
      match iterate h content with
      | .error m => .error m
      | .ok items => firstText h items
    else .ok (.str "")

/-- The expression `parsedData.k || ''`. -/
def readField (h : Host) (parsedData : JSValue) (k : String) : Except String JSValue :=
  match getProp h parsedData k with
  | .error m => .error m
  | .ok v => .ok (jsOr v (.str ""))

/-- Lines 126–138: build `responseData` and send it with status 200. -/
def sendResult (h : Host) (res : Response) (parsedData : JSValue) : Except String Response := do
  let title ← readField h parsedData "title"
  let content ← readField h parsedData "content"
  let location ← readField h parsedData "location"
  let time ← readField h parsedData "time"
  let requirements ← readField h parsedData "requirements"
  pure (res.statusJson 200
    (.obj [("success", .bool true),
           ("data", .obj [("title", title), ("content", content), ("location", location),
                          ("time", time), ("requirements", requirements)])]))

/-- Lines 108–138, for an `extractedText` that is the string `text`. -/
def parseAnswer (h : Host) (res : Response) (text : String) : Except String Response :=
  match regexMatch text.data with
  | none => .error "AI返回格式错误"
  | some jsonString =>
    match h.jsonParse (String.mk jsonString) with
    | .error _ => .error "AI返回数据格式错误"
    | .ok parsedData => sendResult h res parsedData

/-- Lines 71–138: what follows `await fetch(…)` inside the `try` block. -/
def afterFetch (h : Host) (res : Response) : FetchOutcome → Except String Response
  | .rejected m => .error m
  | .responded status body =>
    if !statusOk status then
      .error ("阿里云API请求失败: " ++ toString status)
    else
      match h.jsonParse body with
      | .error m => .error m
      | .ok resultData =>
        match extractText h resultData with
        | .error m => .error m
        | .ok extractedText =>
          if !truthy extractedText then .error "AI处理失败：无法提取信息"
          else
            match extractedText with
            | .str text => parseAnswer h res text
            | other => .error (h.typeErrorMessage (.notCallable "match" other))

/-- The `try` block, lines 21–138: the response it sends or the message of
the error it throws, and the `fetch` calls it made. -/
def tryBlock (h : Host) (req : Request) (res : Response) :
    Except String Response × List OutboundRequest :=
  match destructureImage h req.body with
  | .error m => (.error m, [])
  | .ok image =>
    if !truthy image then
      (.ok (res.statusJson 400 (.obj [("error", .str "没有收到图片数据")])), [])
    else
      match h.apiKey with
      | none => (.ok (res.statusJson 500 (.obj [("error", .str "服务器配置错误")])), [])
      | some apiKey =>
        if apiKey = "" then
          (.ok (res.statusJson 500 (.obj [("error", .str "服务器配置错误")])), [])
        else
          (afterFetch h res (h.fetch (upstreamRequest apiKey image)),
           [upstreamRequest apiKey image])

/-- The three `setHeader` calls of lines 6–8. -/
def withCors (res : Response) : Response :=
  ((res.setHeader "Access-Control-Allow-Origin" "*").setHeader
      "Access-Control-Allow-Methods" "POST, OPTIONS").setHeader
      "Access-Control-Allow-Headers" "Content-Type"

/-- The function `handler(req, res)`. -/
def handler (h : Host) (req : Request) : Outcome :=
  let res := withCors Response.fresh
  if req.method = "OPTIONS" then
    { response := res.statusEnd 200, calls := [] }
  else if req.method ≠ "POST" then
    { response := res.statusJson 405 (.obj [("error", .str "只支持POST请求")]), calls := [] }
  else
    match tryBlock h req res with
    | (.ok sent, calls) => { response := sent, calls := calls }
    | (.error message, calls) =>
      { response := res.statusJson 500
          (.obj [("success", .bool false), ("error", .str ("处理失败: " ++ message))])
        calls := calls }

/-! ## The specification side -/

/-- The characters of `cs` up to and including its last `}` (nothing when it
has none). -/
def throughLastClose (cs : List Char) : List Char :=
  cs.rdropWhile (· ≠ '}')

/-- The substring of `t` from its first `{` through its last `}`, which
exists when some `}` occurs after the first `{`. -/
def braceSpan (t : List Char) : Option (List Char) :=
  match t.dropWhile (· ≠ '{') with
  | [] => none
  | open_ :: rest => if '}' ∈ rest then some (open_ :: throughLastClose rest) else none

/-- The value of key `k` in an object with properties `props` when the key is
present with a truthy value, and `""` otherwise. -/
def fieldOrEmpty (props : List (String × JSValue)) (k : String) : JSValue :=
  match props.lookup k with
  | some v => if truthy v then v else .str ""
  | none => .str ""

/-- The three CORS headers. -/
def corsHeaders : List (String × String) :=
  [("Access-Control-Allow-Origin", "*"),
   ("Access-Control-Allow-Methods", "POST, OPTIONS"),
   ("Access-Control-Allow-Headers", "Content-Type")]

/-- The body `{ success: false, error: message }`. -/
def failureBody (message : String) : JSValue :=
  .obj [("success", .bool false), ("error", .str message)]

/-- The body `{ error: message }`. -/
def errorBody (message : String) : JSValue :=
  .obj [("error", .str message)]

/-- The body `{ success: true, data: { title, content, location, time, requirements } }`. -/
def successBody (title content location time requirements : JSValue) : JSValue :=
  .obj [("success", .bool true),
        ("data", .obj [("title", title), ("content", content), ("location", location),
                       ("time", time), ("requirements", requirements)])]

/-- The request is a POST with a truthy `image`, the API key is configured,
the upstream answered with a 2xx status and a JSON body, and lines 82–99 left
the non-empty string `text` in `extractedText`. -/
def ExtractedText (h : Host) (req : Request) (text : String) : Prop :=
  req.method = "POST" ∧ truthy (ownProp req.body "image") = true ∧
  ∃ apiKey status body resultData,
    h.apiKey = some apiKey ∧ apiKey ≠ "" ∧
    h.fetch (upstreamRequest apiKey (ownProp req.body "image")) = .responded status body ∧
    statusOk status = true ∧
    h.jsonParse body = .ok resultData ∧
    extractText h resultData = .ok (.str text) ∧ text ≠ ""

/-- A response sent from the success path of the request `req`: the text
`text` was extracted from the upstream answer, `JSON.parse` accepted its
substring `span` from the first `{` through the last `}` and returned
`parsedData`, and the response is the 200 with the five fields
`parsedData.k || ''`. -/
def IsResult (h : Host) (req : Request) (res sent : Response) : Prop :=
  ∃ text span parsedData, ExtractedText h req text ∧
    braceSpan text.data = some span ∧
    h.jsonParse (String.mk span) = .ok parsedData ∧
    parsedData.isNullish = false ∧
    sent = res.statusJson 200 (successBody
      (jsOr (ownProp parsedData "title") (.str ""))
      (jsOr (ownProp parsedData "content") (.str ""))
      (jsOr (ownProp parsedData "location") (.str ""))
      (jsOr (ownProp parsedData "time") (.str ""))
      (jsOr (ownProp parsedData "requirements") (.str "")))

/-! ## Worked examples -/

/-- The word V8 uses for a null or undefined value. -/
def nullishName : JSValue → String
  | .null => "null"
  | _ => "undefined"

/-- The messages of V8, the engine of Node.js, for the four faults. -/
def v8Message : Fault → String
  | .destructure prop source =>
    "Cannot destructure property '" ++ prop ++ "' of 'req.body' as it is " ++
      nullishName source ++ "."
  | .readProp prop source =>
    "Cannot read properties of " ++ nullishName source ++ " (reading '" ++ prop ++ "')"
  | .notIterable _ => "content is not iterable"
  | .notCallable prop _ => "extractedText." ++ prop ++ " is not a function"

/-- A host for a worked example: the key, the answer of the upstream service,
and what `JSON.parse` returns for each text the example hands to it (any
other text is reported as a syntax error). -/
def exampleHost (key : Option String) (upstream : FetchOutcome)
    (parses : List (String × JSValue)) : Host :=
  { apiKey := key
    fetch := fun _ => upstream
    jsonParse := fun text =>
      match parses.lookup text with
      | some v => .ok v
      | none => .error "Unexpected token"
    typeErrorMessage := v8Message }

/-- A POST request with body `{ "image": "data:image/png;base64,AAAA" }`. -/
def imageRequest : Request :=
  { method := "POST", body := .obj [("image", .str "data:image/png;base64,AAAA")] }

/-- The upstream body whose only content item has the given text. -/
def upstreamValue (text : JSValue) : JSValue :=
  .obj [("output", .obj [("choices", .arr [.obj [("message",
    .obj [("content", .arr [.obj [("text", text)]])])]])])]

/-- The answer of the model in the first example: a JSON object with the five
fields, between two words of prose. -/
def fullAnswerText : String :=
  "noise " ++ ("\x7b" ++ "\"title\":\"T\",\"content\":\"C\",\"location\":\"L\",\"time\":\"2024-01-20 14:00\",\"requirements\":\"R\"" ++ "\x7d") ++ " trailing"

/-- The upstream response body that carries `fullAnswerText`. -/
def fullAnswerBody : String :=
  "\x7b\"output\":\x7b\"choices\":[\x7b\"message\":\x7b\"content\":[\x7b\"text\":\"noise \x7b\\\"title\\\":\\\"T\\\",\\\"content\\\":\\\"C\\\",\\\"location\\\":\\\"L\\\",\\\"time\\\":\\\"2024-01-20 14:00\\\",\\\"requirements\\\":\\\"R\\\"\x7d trailing\"\x7d]\x7d\x7d]\x7d\x7d"

/-- The object `JSON.parse` makes of the braces of `fullAnswerText`. -/
def fullAnswerObject : List (String × JSValue) :=
  [("title", .str "T"), ("content", .str "C"), ("location", .str "L"),
   ("time", .str "2024-01-20 14:00"), ("requirements", .str "R")]

/-- The host of the first example: the upstream answers 200 with
`fullAnswerBody`. -/
def fullAnswerHost : Host :=
  exampleHost (some "sk-1") (.responded 200 fullAnswerBody)
    [(fullAnswerBody, upstreamValue (.str fullAnswerText)),
     ("\x7b" ++ "\"title\":\"T\",\"content\":\"C\",\"location\":\"L\",\"time\":\"2024-01-20 14:00\",\"requirements\":\"R\"" ++ "\x7d", .obj fullAnswerObject)]

/-- The upstream response body whose model answer is `{"title":true}`. -/
def flagAnswerBody : String :=
  "\x7b\"output\":\x7b\"choices\":[\x7b\"message\":\x7b\"content\":[\x7b\"text\":\"\x7b\\\"title\\\":true\x7d\"\x7d]\x7d\x7d]\x7d\x7d"

/-- The host of the second example: the model answers with a title that is the
boolean `true`. -/
def flagAnswerHost : Host :=
  exampleHost (some "sk-1") (.responded 200 flagAnswerBody)
    [(flagAnswerBody, upstreamValue (.str "\x7b\"title\":true\x7d")),
     ("\x7b\"title\":true\x7d", .obj [("title", .bool true)])]

/-- The upstream response body whose model answer is `{title: unquoted}`, braces
around text that is not JSON. -/
def unquotedAnswerBody : String :=
  "\x7b\"output\":\x7b\"choices\":[\x7b\"message\":\x7b\"content\":[\x7b\"text\":\"\x7btitle: unquoted\x7d\"\x7d]\x7d\x7d]\x7d\x7d"

/-- The host of the third example: `JSON.parse` accepts the upstream body and
rejects the model answer. -/
def unquotedAnswerHost : Host :=
  exampleHost (some "sk-1") (.responded 200 unquotedAnswerBody)
    [(unquotedAnswerBody, upstreamValue (.str "\x7btitle: unquoted\x7d"))]

/-- The upstream response body whose content is the one-item sequence `[null]`. -/
def nullItemBody : String :=
  "\x7b\"output\":\x7b\"choices\":[\x7b\"message\":\x7b\"content\":[null]\x7d\x7d]\x7d\x7d"

/-- The host of the fourth example: the upstream answers 200 with
`nullItemBody`. -/
def nullItemHost : Host :=
  exampleHost (some "sk-1") (.responded 200 nullItemBody)
    [(nullItemBody, .obj [("output", .obj [("choices", .arr [.obj [("message",
      .obj [("content", .arr [.null])])]])])])]

/-- The host of the fifth example: the upstream answers 200 with the body
`null`. -/
def nullBodyHost : Host :=
  exampleHost (some "sk-1") (.responded 200 "null") [("null", .null)]

/-! ## The regular expression finds the span from the first `{` to the last `}` -/

theorem matchTail_eq_none {cs : List Char} (hcs : '}' ∉ cs) : matchTail cs = none := by
  induction cs with
  | nil => rfl
  | cons c cs ih =>
    simp only [List.mem_cons, not_or] at hcs
    have hc : c ≠ '}' := fun e => hcs.1 e.symm
    simp [matchTail, ih hcs.2, hc]

theorem rdropWhile_cons_of_exists {p : Char → Bool} (c : Char) {cs : List Char}
    (hcs : ∃ x ∈ cs, p x = false) :
    List.rdropWhile p (c :: cs) = c :: List.rdropWhile p cs := by
  induction cs using List.reverseRecOn with
  | nil => simp at hcs
  | append_singleton l x ih =>
    rw [← List.cons_append, List.rdropWhile_concat, List.rdropWhile_concat]
    by_cases hx : p x = true
    · have hl : ∃ y ∈ l, p y = false := by
        obtain ⟨y, hy, hpy⟩ := hcs
        rcases List.mem_append.1 hy with hy | hy
        · exact ⟨y, hy, hpy⟩
        · simp at hy; subst hy; simp [hx] at hpy
      simp [hx, ih hl]
    · simp [hx]

theorem rdropWhile_cons_of_forall {p : Char → Bool} (c : Char) {cs : List Char}
    (hcs : ∀ x ∈ cs, p x = true) :
    List.rdropWhile p (c :: cs) = if p c then [] else [c] := by
  induction cs using List.reverseRecOn with
  | nil => simp [List.rdropWhile_singleton]
  | append_singleton l x ih =>
    rw [← List.cons_append, List.rdropWhile_concat]
    have hx : p x = true := hcs x (by simp)
    have hl : ∀ y ∈ l, p y = true := fun y hy => hcs y (by simp [hy])
    simp [hx, ih hl]

theorem throughLastClose_cons_of_mem {c : Char} {cs : List Char} (hcs : '}' ∈ cs) :
    throughLastClose (c :: cs) = c :: throughLastClose cs :=
  rdropWhile_cons_of_exists c ⟨'}', hcs, by simp⟩

theorem throughLastClose_close_cons {cs : List Char} (hcs : '}' ∉ cs) :
    throughLastClose ('}' :: cs) = ['}'] := by
  unfold throughLastClose
  rw [rdropWhile_cons_of_forall]
  · simp
  · intro x hx
    have : x ≠ '}' := fun e => hcs (e ▸ hx)
    simpa using this

theorem matchTail_eq_some {cs : List Char} (hcs : '}' ∈ cs) :
    matchTail cs = some (throughLastClose cs) := by
  induction cs with
  | nil => simp at hcs
  | cons c cs ih =>
    by_cases hmem : '}' ∈ cs
    · simp [matchTail, ih hmem, throughLastClose_cons_of_mem hmem]
    · have hc : c = '}' := by
        rcases List.mem_cons.1 hcs with e | e
        · exact e.symm
        · exact absurd e hmem
      subst hc
      simp [matchTail, matchTail_eq_none hmem, throughLastClose_close_cons hmem]

theorem mem_of_regexMatch {cs m : List Char} (hm : regexMatch cs = some m) : '}' ∈ cs := by
  induction cs generalizing m with
  | nil => simp [regexMatch] at hm
  | cons c cs ih =>
    by_cases hmem : '}' ∈ cs
    · exact List.mem_cons_of_mem _ hmem
    · have hnone : regexMatch cs = none := by
        cases hr : regexMatch cs with
        | none => rfl
        | some m2 => exact absurd (ih hr) hmem
      simp [regexMatch, matchHere, matchTail_eq_none hmem, hnone] at hm

/-- The regular expression and the description in words agree on every text. -/
theorem regexMatch_eq_braceSpan (t : List Char) : regexMatch t = braceSpan t := by
  induction t with
  | nil => rfl
  | cons c cs ih =>
    by_cases hc : c = '{'
    · subst hc
      by_cases hmem : '}' ∈ cs
      · simp [regexMatch, matchHere, braceSpan, matchTail_eq_some hmem, hmem]
      · have hnone : regexMatch cs = none := by
          cases hr : regexMatch cs with
          | none => rfl
          | some m => exact absurd (mem_of_regexMatch hr) hmem
        simp [regexMatch, matchHere, braceSpan, matchTail_eq_none hmem, hmem, hnone]
    · have hd : List.dropWhile (fun x => decide (x ≠ '{')) (c :: cs)
          = List.dropWhile (fun x => decide (x ≠ '{')) cs := by
        simp [List.dropWhile, hc]
      simp only [regexMatch, matchHere, hc, if_false, ih]
      unfold braceSpan
      rw [hd]

/-! ## The shape of what the `try` block does -/

theorem withCors_fresh :
    withCors Response.fresh = { headers := corsHeaders, status := 200, body := .pending } := rfl

/-- The five reads of `parsedData` fail together (on null and undefined) or
succeed together. -/
theorem sendResult_eq (h : Host) (res : Response) (parsedData : JSValue) :
    sendResult h res parsedData =
      if parsedData.isNullish then
        .error (h.typeErrorMessage (.readProp "title" parsedData))
      else
        .ok (res.statusJson 200 (successBody
          (jsOr (ownProp parsedData "title") (.str ""))
          (jsOr (ownProp parsedData "content") (.str ""))
          (jsOr (ownProp parsedData "location") (.str ""))
          (jsOr (ownProp parsedData "time") (.str ""))
          (jsOr (ownProp parsedData "requirements") (.str "")))) := by
  cases parsedData <;> rfl

theorem parseAnswer_ok {h : Host} {res sent : Response} {text : String}
    (hs : parseAnswer h res text = .ok sent) :
    ∃ span parsedData, braceSpan text.data = some span ∧
      h.jsonParse (String.mk span) = .ok parsedData ∧ parsedData.isNullish = false ∧
      sent = res.statusJson 200 (successBody
        (jsOr (ownProp parsedData "title") (.str ""))
        (jsOr (ownProp parsedData "content") (.str ""))
        (jsOr (ownProp parsedData "location") (.str ""))
        (jsOr (ownProp parsedData "time") (.str ""))
        (jsOr (ownProp parsedData "requirements") (.str ""))) := by
  unfold parseAnswer at hs
  cases hm : regexMatch text.data with
  | none => simp [hm] at hs
  | some jsonString =>
    cases hp : h.jsonParse (String.mk jsonString) with
    | error e => simp [hm, hp] at hs
    | ok parsedData =>
      simp only [hm, hp, sendResult_eq] at hs
      cases hn : parsedData.isNullish with
      | true => simp [hn] at hs
      | false =>
        simp only [hn] at hs
        rw [regexMatch_eq_braceSpan] at hm
        exact ⟨jsonString, parsedData, hm, hp, hn, (Except.ok.inj hs).symm⟩

theorem afterFetch_ok {h : Host} {res sent : Response} {o : FetchOutcome}
    (hs : afterFetch h res o = .ok sent) :
    ∃ status body resultData text, o = .responded status body ∧ statusOk status = true ∧
      h.jsonParse body = .ok resultData ∧ extractText h resultData = .ok (.str text) ∧
      text ≠ "" ∧ parseAnswer h res text = .ok sent := by
  cases o with
  | rejected m => simp [afterFetch] at hs
  | responded status body =>
    unfold afterFetch at hs
    cases hok : statusOk status with
    | false => simp [hok] at hs
    | true =>
      cases hp : h.jsonParse body with
      | error e => simp [hok, hp] at hs
      | ok resultData =>
        cases he : extractText h resultData with
        | error e => simp [hok, hp, he] at hs
        | ok extractedText =>
          cases ht : truthy extractedText with
          | false => simp [hok, hp, he, ht] at hs
          | true =>
            cases extractedText with
            | str text =>
              simp only [hok, hp, he, ht] at hs
              have hne : text ≠ "" := by simpa [truthy] using ht
              exact ⟨status, body, resultData, text, rfl, hok, hp, he, hne, by simpa using hs⟩
            | _ => simp [hok, hp, he, ht] at hs

theorem destructureImage_ok {h : Host} {body image : JSValue}
    (hd : destructureImage h body = .ok image) : image = ownProp body "image" := by
  cases body <;> first | exact (Except.ok.inj hd).symm | exact Except.noConfusion hd

/-- Each way the `try` block can end. -/
theorem tryBlock_cases (h : Host) (req : Request) (res : Response)
    (hpost : req.method = "POST") :
    tryBlock h req res = (.ok (res.statusJson 400 (errorBody "没有收到图片数据")), []) ∨
    tryBlock h req res = (.ok (res.statusJson 500 (errorBody "服务器配置错误")), []) ∨
    (∃ message calls, tryBlock h req res = (.error message, calls)) ∨
    (∃ sent calls, tryBlock h req res = (.ok sent, calls) ∧ IsResult h req res sent) := by
  unfold tryBlock
  cases hd : destructureImage h req.body with
  | error m => exact Or.inr (Or.inr (Or.inl ⟨m, [], rfl⟩))
  | ok image =>
    have himg := destructureImage_ok hd
    cases ht : truthy image with
    | false => exact Or.inl (by simp [ht, errorBody])
    | true =>
      cases hk : h.apiKey with
      | none => exact Or.inr (Or.inl (by simp [ht, errorBody]))
      | some apiKey =>
        by_cases he : apiKey = ""
        · exact Or.inr (Or.inl (by simp [ht, he, errorBody]))
        · cases ha : afterFetch h res (h.fetch (upstreamRequest apiKey image)) with
          | error m =>
            exact Or.inr (Or.inr (Or.inl ⟨m, [upstreamRequest apiKey image], by simp [ht, he, ha]⟩))
          | ok sent =>
            obtain ⟨status, body, resultData, text, hf, hok, hj, hx, hne, hpa⟩ := afterFetch_ok ha
            obtain ⟨span, parsedData, hspan, hparse, hnn, hsent⟩ := parseAnswer_ok hpa
            subst himg
            exact Or.inr (Or.inr (Or.inr
              ⟨sent, [upstreamRequest apiKey (ownProp req.body "image")], by simp [ht, he, ha],
                text, span, parsedData,
                ⟨hpost, ht, apiKey, status, body, resultData, hk, he, hf, hok, hj, hx, hne⟩,
                hspan, hparse, hnn, hsent⟩))

theorem handler_options (h : Host) (req : Request) (hm : req.method = "OPTIONS") :
    handler h req =
      { response := { headers := corsHeaders, status := 200, body := .empty }, calls := [] } := by
  simp [handler, hm, withCors_fresh, Response.statusEnd]

theorem handler_other (h : Host) (req : Request) (ho : req.method ≠ "OPTIONS")
    (hp : req.method ≠ "POST") :
    handler h req =
      { response := { headers := corsHeaders, status := 405,
                      body := .json (errorBody "只支持POST请求") },
        calls := [] } := by
  simp [handler, ho, hp, withCors_fresh, Response.statusJson, errorBody]

theorem handler_post (h : Host) (req : Request) (hp : req.method = "POST") :
    handler h req =
      match tryBlock h req { headers := corsHeaders, status := 200, body := .pending } with
      | (.ok sent, calls) => { response := sent, calls := calls }
      | (.error message, calls) =>
        { response := { headers := corsHeaders, status := 500,
                        body := .json (failureBody ("处理失败: " ++ message)) },
          calls := calls } := by
  simp [handler, hp, withCors_fresh, Response.statusJson, failureBody]

/-! ## Headers and methods -/

/-- Every request is answered: the handler never leaves the response open. -/
theorem every_request_answered (h : Host) (req : Request) :
    (handler h req).response.body ≠ .pending := by
  by_cases ho : req.method = "OPTIONS"
  · rw [handler_options h req ho]; exact fun e => Body.noConfusion e
  · by_cases hp : req.method = "POST"
    · rw [handler_post h req hp]
      rcases tryBlock_cases h req { headers := corsHeaders, status := 200, body := .pending } hp with
        e | e | ⟨m, calls, e⟩ | ⟨sent, calls, e, text, span, pd, -, -, -, -, hsent⟩
      · rw [e]; exact fun e => Body.noConfusion e
      · rw [e]; exact fun e => Body.noConfusion e
      · rw [e]; exact fun e => Body.noConfusion e
      · rw [e, hsent]; exact fun e => Body.noConfusion e
    · rw [handler_other h req ho hp]; exact fun e => Body.noConfusion e

/-- Claim C8: whatever the method, the body, the key configuration and the
upstream behaviour, the response carries exactly the three CORS headers
`Access-Control-Allow-Origin: *`, `Access-Control-Allow-Methods: POST, OPTIONS`
and `Access-Control-Allow-Headers: Content-Type`. -/
theorem cors_headers_on_every_response (h : Host) (req : Request) :
    (handler h req).response.headers =
      [("Access-Control-Allow-Origin", "*"),
       ("Access-Control-Allow-Methods", "POST, OPTIONS"),
       ("Access-Control-Allow-Headers", "Content-Type")] := by
  by_cases ho : req.method = "OPTIONS"
  · rw [handler_options h req ho]; rfl
  · by_cases hp : req.method = "POST"
    · rw [handler_post h req hp]
      rcases tryBlock_cases h req { headers := corsHeaders, status := 200, body := .pending } hp with
        e | e | ⟨m, calls, e⟩ | ⟨sent, calls, e, text, span, pd, -, -, -, -, hsent⟩
      · rw [e]; rfl
      · rw [e]; rfl
      · rw [e]; rfl
      · rw [e, hsent]; rfl
    · rw [handler_other h req ho hp]; rfl

/-- Claim C9: for a request whose method is not POST the outcome is a function
of the method alone — for OPTIONS the response is ended with status 200 and
without a body (`Body.empty`, not the `Body.pending` of an untouched writer),
for any other method it is sent with status 405 and body
`{ error: '只支持POST请求' }` — and no upstream call is made. -/
theorem non_post_decided_by_method (h : Host) (req : Request) (hp : req.method ≠ "POST") :
    handler h req =
      if req.method = "OPTIONS" then
        { response := { headers := corsHeaders, status := 200, body := .empty }, calls := [] }
      else
        { response := { headers := corsHeaders, status := 405,
                        body := .json (.obj [("error", .str "只支持POST请求")]) },
          calls := [] } := by
  by_cases ho : req.method = "OPTIONS"
  · rw [handler_options h req ho, if_pos ho]
  · rw [handler_other h req ho hp, if_neg ho]; rfl

/-- Witness for C9: a DELETE request with an image in its body and a configured
key gets the 405 response and contacts nobody. -/
theorem non_post_decided_by_method_witness :
    "DELETE" ≠ "POST" ∧
    handler (exampleHost (some "sk-1") (.responded 200 "") [])
        { method := "DELETE", body := .obj [("image", .str "AAAA")] } =
      { response := { headers := corsHeaders, status := 405,
                      body := .json (.obj [("error", .str "只支持POST请求")]) },
        calls := [] } :=
  ⟨by decide, non_post_decided_by_method _ _ (by decide)⟩

/-! ## The guards of the `try` block -/

theorem destructureImage_of_truthy (h : Host) {body : JSValue}
    (hi : truthy (ownProp body "image") = true) :
    destructureImage h body = .ok (ownProp body "image") := by
  cases body <;> first | rfl | simp [ownProp, truthy] at hi

theorem destructureImage_of_not_nullish (h : Host) {body : JSValue}
    (hb : body.isNullish = false) :
    destructureImage h body = .ok (ownProp body "image") := by
  cases body <;> first | rfl | simp [JSValue.isNullish] at hb

/-- A POST whose body is a value with properties and whose `image` is absent or
falsy is answered with status 400, before the key is looked at and without an
upstream call. -/
theorem missing_image_rejected (h : Host) (req : Request) (hp : req.method = "POST")
    (hb : req.body.isNullish = false) (hi : truthy (ownProp req.body "image") = false) :
    handler h req =
      { response := { headers := corsHeaders, status := 400,
                      body := .json (.obj [("error", .str "没有收到图片数据")]) },
        calls := [] } := by
  rw [handler_post h req hp]
  simp [tryBlock, destructureImage_of_not_nullish h hb, hi, Response.statusJson]

/-- Every outbound call is made with a configured, non-empty key. -/
theorem calls_need_key (h : Host) (req : Request) (hc : (handler h req).calls ≠ []) :
    ∃ apiKey, h.apiKey = some apiKey ∧ apiKey ≠ "" := by
  by_cases ho : req.method = "OPTIONS"
  · rw [handler_options h req ho] at hc; exact absurd rfl hc
  · by_cases hp : req.method = "POST"
    · rw [handler_post h req hp] at hc
      unfold tryBlock at hc
      cases hd : destructureImage h req.body with
      | error m => simp [hd] at hc
      | ok image =>
        cases ht : truthy image with
        | false => simp [hd, ht] at hc
        | true =>
          cases hk : h.apiKey with
          | none => simp [hd, ht, hk] at hc
          | some apiKey =>
            by_cases he : apiKey = ""
            · simp [hd, ht, hk, he] at hc
            · exact ⟨apiKey, rfl, he⟩
    · rw [handler_other h req ho hp] at hc; exact absurd rfl hc

/-- Claim C7: a POST with a truthy `image`, on a host whose `ALIYUN_API_KEY` is
absent or empty, is answered with status 500 and body
`{ error: '服务器配置错误' }` without an upstream call; and on such a host no
request at all leads to an upstream call. -/
theorem missing_key_rejected (h : Host) (req : Request) (hp : req.method = "POST")
    (hi : truthy (ownProp req.body "image") = true)
    (hk : h.apiKey = none ∨ h.apiKey = some "") :
    handler h req =
      { response := { headers := corsHeaders, status := 500,
                      body := .json (.obj [("error", .str "服务器配置错误")]) },
        calls := [] } ∧
    ∀ other : Request, (handler h other).calls = [] := by
  constructor
  · rw [handler_post h req hp]
    rcases hk with hk | hk <;>
      simp [tryBlock, destructureImage_of_truthy h hi, hi, hk, Response.statusJson]
  · intro other
    by_contra hc
    obtain ⟨apiKey, hsome, hne⟩ := calls_need_key h other hc
    rcases hk with hk | hk
    · rw [hk] at hsome; exact Option.noConfusion hsome
    · rw [hk] at hsome; exact hne (Option.some.inj hsome).symm

/-- Witness for C7: the image request on a host with an empty key. -/
theorem missing_key_rejected_witness :
    handler (exampleHost (some "") (.responded 200 "") []) imageRequest =
      { response := { headers := corsHeaders, status := 500,
                      body := .json (.obj [("error", .str "服务器配置错误")]) },
        calls := [] } :=
  (missing_key_rejected (exampleHost (some "") (.responded 200 "") []) imageRequest
    rfl rfl (Or.inr rfl)).1

/-- Claim C6, at a POST that carries no body (`req.body` is `undefined`) and at
a POST whose JSON body is `null`: the destructuring of line 22 throws, the
`catch` block answers with status 500 and
`{ success: false, error: '处理失败: ' + message }`, and the 400 response for a
missing image is not sent. -/
theorem bodyless_post_gets_500 (h : Host) :
    handler h { method := "POST", body := .undefined } =
      { response := { headers := corsHeaders, status := 500,
                      body := .json (.obj [("success", .bool false),
                        ("error", .str ("处理失败: " ++
                          h.typeErrorMessage (.destructure "image" .undefined)))]) },
        calls := [] } ∧
    handler h { method := "POST", body := .null } =
      { response := { headers := corsHeaders, status := 500,
                      body := .json (.obj [("success", .bool false),
                        ("error", .str ("处理失败: " ++
                          h.typeErrorMessage (.destructure "image" .null)))]) },
        calls := [] } ∧
    (handler h { method := "POST", body := .undefined }).response.status ≠ 400 ∧
    (handler h { method := "POST", body := .null }).response.status ≠ 400 := by
  have e1 := handler_post h { method := "POST", body := .undefined } rfl
  have e2 := handler_post h { method := "POST", body := .null } rfl
  simp only [tryBlock, destructureImage] at e1 e2
  rw [e1, e2]
  refine ⟨rfl, rfl, fun hs => ?_, fun hs => ?_⟩
  · have h500 : (500 : Nat) = 400 := hs
    exact absurd h500 (by decide)
  · have h500 : (500 : Nat) = 400 := hs
    exact absurd h500 (by decide)

/-! ## Upstream failures -/

/-- The response to a POST with a truthy `image` and a configured key when the
upstream status `n` is outside 200–299. -/
theorem response_of_upstream_failure (h : Host) (req : Request) (apiKey : String) (n : Nat)
    (body : String) (hp : req.method = "POST")
    (hi : truthy (ownProp req.body "image") = true)
    (hk : h.apiKey = some apiKey) (hne : apiKey ≠ "")
    (hf : h.fetch (upstreamRequest apiKey (ownProp req.body "image")) = .responded n body)
    (hn : ¬ (200 ≤ n ∧ n ≤ 299)) :
    (handler h req).response =
      { headers := corsHeaders, status := 500,
        body := .json (.obj [("success", .bool false),
          ("error", .str ("处理失败: 阿里云API请求失败: " ++ toString n))]) } := by
  have hok : statusOk n = false := by
    simp only [statusOk, Bool.and_eq_false_iff, decide_eq_false_iff_not]
    by_cases h1 : 200 ≤ n
    · exact Or.inr fun h2 => hn ⟨h1, h2⟩
    · exact Or.inl h1
  rw [handler_post h req hp]
  simp only [tryBlock, destructureImage_of_truthy h hi, hi, hk, hne, hf, afterFetch, hok]
  simp only [failureBody, ← String.append_assoc]
  rfl

/-- Claim C5: a POST with a truthy `image` and a configured key, answered
upstream with a status `n` outside 200–299, gets status 500 and the body
`{ success: false, error: '处理失败: 阿里云API请求失败: ' ++ decimal n }`.  The
error string contains the digits of `n`, and the response is the same on any
host where the upstream answers the same call with the same status and
another body. -/
theorem upstream_failure_reported (h : Host) (req : Request) (apiKey : String) (n : Nat)
    (body : String) (hp : req.method = "POST")
    (hi : truthy (ownProp req.body "image") = true)
    (hk : h.apiKey = some apiKey) (hne : apiKey ≠ "")
    (hf : h.fetch (upstreamRequest apiKey (ownProp req.body "image")) = .responded n body)
    (hn : ¬ (200 ≤ n ∧ n ≤ 299)) :
    (handler h req).response =
      { headers := corsHeaders, status := 500,
        body := .json (.obj [("success", .bool false),
          ("error", .str ("处理失败: 阿里云API请求失败: " ++ toString n))]) } ∧
    (toString n).data <:+: ("处理失败: 阿里云API请求失败: " ++ toString n).data ∧
    ∀ (other : Host) (otherBody : String), other.apiKey = some apiKey →
      other.fetch (upstreamRequest apiKey (ownProp req.body "image"))
        = .responded n otherBody →
      (handler other req).response = (handler h req).response := by
  refine ⟨response_of_upstream_failure h req apiKey n body hp hi hk hne hf hn,
    ⟨"处理失败: 阿里云API请求失败: ".data, [], by simp⟩, fun other otherBody hk2 hf2 => ?_⟩
  rw [response_of_upstream_failure h req apiKey n body hp hi hk hne hf hn,
    response_of_upstream_failure other req apiKey n otherBody hp hi hk2 hne hf2 hn]

/-- Witness for C5: the upstream answers 404 with some HTML; the response
quotes the status and nothing of the body. -/
theorem upstream_failure_reported_witness :
    (handler (exampleHost (some "sk-1") (.responded 404 "<html>not found</html>") [])
        imageRequest).response =
      { headers := corsHeaders, status := 500,
        body := .json (.obj [("success", .bool false),
          ("error", .str "处理失败: 阿里云API请求失败: 404")]) } :=
  (upstream_failure_reported
    (exampleHost (some "sk-1") (.responded 404 "<html>not found</html>") [])
    imageRequest "sk-1" 404 "<html>not found</html>" rfl rfl rfl (by decide) rfl
    (by decide)).1

/-! ## The shape of every response -/

/-- Claim C3, as the code has it: every response is one of six kinds — 200 with
an empty body; 200 with `{ success: true, data: {…} }`; 405, 400 or 500 with
`{ error: <fixed string> }` and no `success` key (the three guards); 500 with
`{ success: false, error: '处理失败: ' ++ message }` (the `catch` block).  So
every failure response carries a string `error`, and `success: false` comes
with it exactly in the responses of the `catch` block. -/
theorem response_shapes (h : Host) (req : Request) :
    ((handler h req).response.status = 200 ∧ (handler h req).response.body = .empty) ∨
    ((handler h req).response.status = 200 ∧ ∃ title content location time requirements,
      (handler h req).response.body = .json (.obj [("success", .bool true),
        ("data", .obj [("title", title), ("content", content), ("location", location),
                       ("time", time), ("requirements", requirements)])])) ∨
    ((handler h req).response.status = 405 ∧
      (handler h req).response.body = .json (.obj [("error", .str "只支持POST请求")])) ∨
    ((handler h req).response.status = 400 ∧
      (handler h req).response.body = .json (.obj [("error", .str "没有收到图片数据")])) ∨
    ((handler h req).response.status = 500 ∧
      (handler h req).response.body = .json (.obj [("error", .str "服务器配置错误")])) ∨
    ((handler h req).response.status = 500 ∧ ∃ message,
      (handler h req).response.body =
        .json (.obj [("success", .bool false), ("error", .str ("处理失败: " ++ message))])) := by
  by_cases ho : req.method = "OPTIONS"
  · rw [handler_options h req ho]; exact Or.inl ⟨rfl, rfl⟩
  · by_cases hp : req.method = "POST"
    · rw [handler_post h req hp]
      rcases tryBlock_cases h req { headers := corsHeaders, status := 200, body := .pending } hp with
        e | e | ⟨m, calls, e⟩ | ⟨sent, calls, e, text, span, pd, -, -, -, -, hsent⟩
      · rw [e]; exact Or.inr (Or.inr (Or.inr (Or.inl ⟨rfl, rfl⟩)))
      · rw [e]; exact Or.inr (Or.inr (Or.inr (Or.inr (Or.inl ⟨rfl, rfl⟩))))
      · rw [e]; exact Or.inr (Or.inr (Or.inr (Or.inr (Or.inr ⟨rfl, m, rfl⟩))))
      · rw [e, hsent]; exact Or.inr (Or.inl ⟨rfl, _, _, _, _, _, rfl⟩)
    · rw [handler_other h req ho hp]; exact Or.inr (Or.inr (Or.inl ⟨rfl, rfl⟩))

/-- Counterexample to C3 as stated: a GET request is answered with status 405
and the body `{ error: '只支持POST请求' }`, which has no `success` key. -/
theorem method_guard_body_lacks_success :
    (handler (exampleHost (some "sk-1") (.responded 200 "") [])
        { method := "GET", body := .undefined }).response =
      { headers := corsHeaders, status := 405,
        body := .json (.obj [("error", .str "只支持POST请求")]) } ∧
    ownProp (.obj [("error", .str "只支持POST请求")]) "success" = .undefined ∧
    ¬ ∃ message, (handler (exampleHost (some "sk-1") (.responded 200 "") [])
        { method := "GET", body := .undefined }).response.body =
      .json (.obj [("success", .bool false), ("error", .str message)]) := by
  refine ⟨rfl, rfl, ?_⟩
  rintro ⟨message, hm⟩
  have hb : (Body.json (.obj [("error", .str "只支持POST请求")])) =
      .json (.obj [("success", .bool false), ("error", .str message)]) := hm
  simp at hb

/-! ## After the text has been extracted -/

/-- Once `extractedText` holds the non-empty string `text`, the response is
decided by lines 108–138. -/
theorem response_of_extracted {h : Host} {req : Request} {text : String}
    (hx : ExtractedText h req text) :
    (handler h req).response =
      match parseAnswer h { headers := corsHeaders, status := 200, body := .pending } text with
      | .ok sent => sent
      | .error message =>
        { headers := corsHeaders, status := 500,
          body := .json (failureBody ("处理失败: " ++ message)) } := by
  obtain ⟨hp, hi, apiKey, status, body, resultData, hk, hne, hf, hok, hj, he, ht⟩ := hx
  have htr : truthy (.str text) = true := by simpa [truthy] using ht
  rw [handler_post h req hp]
  simp only [tryBlock, destructureImage_of_truthy h hi, hi, hk, hne, hf, afterFetch, hok, hj, he,
    htr]
  cases parseAnswer h { headers := corsHeaders, status := 200, body := .pending } text <;> simp

theorem head_of_dropWhile_ne {c : Char} {t rest : List Char} {b : Char}
    (hd : t.dropWhile (· ≠ b) = c :: rest) : c = b := by
  induction t with
  | nil => simp at hd
  | cons a t ih =>
    by_cases ha : a = b
    · subst ha
      simp [List.dropWhile] at hd
      exact hd.1.symm
    · have : List.dropWhile (fun x => decide (x ≠ b)) (a :: t)
          = List.dropWhile (fun x => decide (x ≠ b)) t := by simp [List.dropWhile, ha]
      rw [this] at hd
      exact ih hd

theorem braceSpan_head {t s : List Char} (hs : braceSpan t = some s) :
    ∃ rest, s = '{' :: rest := by
  unfold braceSpan at hs
  split at hs
  · simp at hs
  · rename_i c rest hd
    have hc : c = '{' := head_of_dropWhile_ne hd
    subst hc
    split at hs
    · exact ⟨_, (Option.some.inj hs).symm⟩
    · simp at hs

theorem not_infix_of_head_not_mem {s msg : List Char} {c : Char} {rest : List Char}
    (hs : s = c :: rest) (hc : c ∉ msg) : ¬ s <:+: msg := by
  intro hinf
  exact hc (hinf.subset (by simp [hs]))

/-- Claim C4: let `text` be the extracted text of a 2xx upstream answer and `s`
the substring from its first `{` through its last `}`.  When there is no such
substring the response is 500 with
`{ success: false, error: '处理失败: AI返回格式错误' }`; when there is one and
`JSON.parse` rejects it the response is 500 with
`{ success: false, error: '处理失败: AI返回数据格式错误' }`, whatever the parse
error says, and `s` does not occur in that error string. -/
theorem malformed_answer_rejected (h : Host) (req : Request) (text : String)
    (hx : ExtractedText h req text) :
    (braceSpan text.data = none →
      (handler h req).response =
        { headers := corsHeaders, status := 500,
          body := .json (.obj [("success", .bool false),
            ("error", .str "处理失败: AI返回格式错误")]) }) ∧
    (∀ s, braceSpan text.data = some s → (∀ v, h.jsonParse (String.mk s) ≠ .ok v) →
      (handler h req).response =
        { headers := corsHeaders, status := 500,
          body := .json (.obj [("success", .bool false),
            ("error", .str "处理失败: AI返回数据格式错误")]) } ∧
      ¬ s <:+: "处理失败: AI返回数据格式错误".data) := by
  constructor
  · intro hnone
    rw [response_of_extracted hx]
    simp only [parseAnswer, regexMatch_eq_braceSpan, hnone]
    rfl
  · intro s hsome hbad
    constructor
    · rw [response_of_extracted hx]
      simp only [parseAnswer, regexMatch_eq_braceSpan, hsome]
      cases hj : h.jsonParse (String.mk s) with
      | ok v => exact absurd hj (hbad v)
      | error e => rfl
    · obtain ⟨rest, hrest⟩ := braceSpan_head hsome
      exact not_infix_of_head_not_mem hrest (by decide)

/-- Witness for C4: the model answers `{title: unquoted}`; the braces are found,
`JSON.parse` rejects them, and the response is the fixed 500. -/
theorem malformed_answer_rejected_witness :
    (handler unquotedAnswerHost imageRequest).response =
      { headers := corsHeaders, status := 500,
        body := .json (.obj [("success", .bool false),
          ("error", .str "处理失败: AI返回数据格式错误")]) } :=
  ((malformed_answer_rejected unquotedAnswerHost imageRequest "\x7btitle: unquoted\x7d"
      ⟨rfl, rfl, "sk-1", 200, unquotedAnswerBody,
        upstreamValue (.str "\x7btitle: unquoted\x7d"),
        rfl, by decide, rfl, rfl, rfl, rfl, by decide⟩).2
    "\x7btitle: unquoted\x7d".data rfl (fun _ hv => Except.noConfusion hv)).1

/-! ## The successful path -/

theorem rdropWhile_append_of_forall {p : Char → Bool} (l : List Char) {s : List Char}
    (hs : ∀ x ∈ s, p x = true) : List.rdropWhile p (l ++ s) = List.rdropWhile p l := by
  induction s using List.reverseRecOn with
  | nil => simp
  | append_singleton s x ih =>
    rw [← List.append_assoc, List.rdropWhile_concat_pos _ _ _ (hs x (by simp))]
    exact ih fun y hy => hs y (by simp [hy])

/-- A brace-delimited block between a prefix without `{` and a suffix without
`}` is the span from the first `{` to the last `}`. -/
theorem braceSpan_sandwich (p mid s : List Char) (hp : '{' ∉ p) (hs : '}' ∉ s) :
    braceSpan (p ++ ('{' :: (mid ++ ['}'])) ++ s) = some ('{' :: (mid ++ ['}'])) := by
  have hdrop : List.dropWhile (fun x => decide (x ≠ '{')) (p ++ ('{' :: (mid ++ ['}'])) ++ s)
      = '{' :: (mid ++ ['}'] ++ s) := by
    rw [List.append_assoc, List.dropWhile_append_of_pos]
    · simp [List.dropWhile]
    · intro a ha
      have : a ≠ '{' := fun e => hp (e ▸ ha)
      simpa using this
  have hlast : throughLastClose (mid ++ ['}'] ++ s) = mid ++ ['}'] := by
    unfold throughLastClose
    rw [rdropWhile_append_of_forall]
    · exact List.rdropWhile_concat_neg _ _ _ (by simp)
    · intro x hx
      have : x ≠ '}' := fun e => hs (e ▸ hx)
      simpa using this
  have hlast2 : throughLastClose (mid ++ '}' :: s) = mid ++ ['}'] := by
    simpa using hlast
  unfold braceSpan
  rw [hdrop]
  simp [hlast2]

theorem jsOr_ownProp_obj (props : List (String × JSValue)) (k : String) :
    jsOr (ownProp (.obj props) k) (.str "") = fieldOrEmpty props k := by
  unfold ownProp fieldOrEmpty jsOr
  cases hl : List.lookup k props with
  | none => simp [hl, truthy]
  | some v => simp [hl]

/-- Claim C1: for a POST with a truthy `image`, a configured key and a 2xx
upstream answer whose extracted text is `p ++ J ++ s`, where `p` has no `{`,
`s` has no `}` and `J` is a brace-delimited text that `JSON.parse` reads as an
object, the response is 200 with `{ success: true, data: {…} }`, each of the
five fields being the object's value for that key when it is present and
truthy, and `""` otherwise. -/
theorem embedded_object_returned (h : Host) (req : Request) (p mid s : String)
    (props : List (String × JSValue))
    (hx : ExtractedText h req (p ++ ("\x7b" ++ mid ++ "\x7d") ++ s))
    (hp : '{' ∉ p.data) (hs : '}' ∉ s.data)
    (hj : h.jsonParse ("\x7b" ++ mid ++ "\x7d") = .ok (.obj props)) :
    (handler h req).response =
      { headers := corsHeaders, status := 200,
        body := .json (.obj [("success", .bool true),
          ("data", .obj [("title", fieldOrEmpty props "title"),
                         ("content", fieldOrEmpty props "content"),
                         ("location", fieldOrEmpty props "location"),
                         ("time", fieldOrEmpty props "time"),
                         ("requirements", fieldOrEmpty props "requirements")])]) } := by
  have hdata : (p ++ ("\x7b" ++ mid ++ "\x7d") ++ s).data
      = p.data ++ ('{' :: (mid.data ++ ['}'])) ++ s.data := by
    simp [String.data_append]
  have hmk : String.mk ('{' :: (mid.data ++ ['}'])) = "\x7b" ++ mid ++ "\x7d" := by
    apply String.ext
    simp [String.data_append]
  rw [response_of_extracted hx]
  simp only [parseAnswer, regexMatch_eq_braceSpan, hdata, braceSpan_sandwich _ _ _ hp hs, hmk, hj,
    sendResult_eq, JSValue.isNullish, jsOr_ownProp_obj]
  rfl

set_option maxRecDepth 100000 in
/-- Witness for C1: the model answers `noise {…five fields…} trailing`, and the
five fields come back. -/
theorem embedded_object_returned_witness :
    (handler fullAnswerHost imageRequest).response =
      { headers := corsHeaders, status := 200,
        body := .json (.obj [("success", .bool true),
          ("data", .obj [("title", .str "T"), ("content", .str "C"), ("location", .str "L"),
                         ("time", .str "2024-01-20 14:00"), ("requirements", .str "R")])]) } :=
  embedded_object_returned fullAnswerHost imageRequest "noise "
    "\"title\":\"T\",\"content\":\"C\",\"location\":\"L\",\"time\":\"2024-01-20 14:00\",\"requirements\":\"R\""
    " trailing" fullAnswerObject
    ⟨rfl, rfl, "sk-1", 200, fullAnswerBody, upstreamValue (.str fullAnswerText),
      rfl, by decide, rfl, rfl, rfl, rfl, by decide⟩
    (by decide) (by decide) rfl

/-! ## The types of the five fields -/

theorem jsOr_not_nullish (v : JSValue) : (jsOr v (.str "")).isNullish = false := by
  unfold jsOr
  by_cases ht : truthy v = true
  · rw [if_pos ht]
    cases v <;> first | rfl | simp [truthy] at ht
  · rw [if_neg ht]; rfl

theorem jsOr_isString (v : JSValue) (hv : v.isString = true ∨ truthy v = false) :
    (jsOr v (.str "")).isString = true := by
  unfold jsOr
  rcases hv with hv | hv
  · split
    · exact hv
    · rfl
  · simp [hv, JSValue.isString]

/-- Claim C2, as the code has it: every 200 response that has a body answers a
request for which a text was extracted from the upstream answer and
`JSON.parse` accepted the substring of that text from its first `{` through
its last `}`, returning `parsedData`; `data` has the five keys `title`,
`content`, `location`, `time`, `requirements`, and the value of each is
`parsedData.k || ''` for that embedded value — never null or undefined, and a
string whenever `parsedData.k` is a string or is absent or falsy.  A truthy
value of another type is passed on as it is. -/
theorem result_fields (h : Host) (req : Request) (v : JSValue)
    (hs : (handler h req).response.status = 200)
    (hb : (handler h req).response.body = .json v) :
    ∃ text span parsedData, ExtractedText h req text ∧
      braceSpan text.data = some span ∧
      h.jsonParse (String.mk span) = .ok parsedData ∧
      v = .obj [("success", .bool true),
        ("data", .obj [("title", jsOr (ownProp parsedData "title") (.str "")),
                       ("content", jsOr (ownProp parsedData "content") (.str "")),
                       ("location", jsOr (ownProp parsedData "location") (.str "")),
                       ("time", jsOr (ownProp parsedData "time") (.str "")),
                       ("requirements", jsOr (ownProp parsedData "requirements") (.str ""))])] ∧
      ∀ k, (jsOr (ownProp parsedData k) (.str "")).isNullish = false ∧
        ((ownProp parsedData k).isString = true ∨ truthy (ownProp parsedData k) = false →
          (jsOr (ownProp parsedData k) (.str "")).isString = true) := by
  by_cases ho : req.method = "OPTIONS"
  · rw [handler_options h req ho] at hb; exact Body.noConfusion hb
  · by_cases hp : req.method = "POST"
    · rw [handler_post h req hp] at hs hb
      rcases tryBlock_cases h req { headers := corsHeaders, status := 200, body := .pending } hp with
        e | e | ⟨m, calls, e⟩ | ⟨sent, calls, e, text, span, pd, hx, hspan, hj, -, hsent⟩
      · rw [e] at hs; exact absurd hs (by decide)
      · rw [e] at hs; exact absurd hs (by decide)
      · rw [e] at hs
        have h500 : (500 : Nat) = 200 := hs
        exact absurd h500 (by decide)
      · rw [e, hsent] at hb
        exact ⟨text, span, pd, hx, hspan, hj, (Body.json.inj hb).symm,
          fun k => ⟨jsOr_not_nullish _, jsOr_isString _⟩⟩
    · rw [handler_other h req ho hp] at hs; exact absurd hs (by decide)

set_option maxRecDepth 100000 in
/-- Witness for C2: the response to the first example is a 200 with a body; its
fields are read off the value `JSON.parse` returned for the braces of the
extracted text, and the title is the string `T`. -/
theorem result_fields_witness :
    (handler fullAnswerHost imageRequest).response.status = 200 ∧
    ∃ text span parsedData, ExtractedText fullAnswerHost imageRequest text ∧
      braceSpan text.data = some span ∧
      fullAnswerHost.jsonParse (String.mk span) = .ok parsedData ∧
      jsOr (ownProp parsedData "title") (.str "") = .str "T" :=
  ⟨rfl,
   match result_fields fullAnswerHost imageRequest
      (.obj [("success", .bool true),
        ("data", .obj [("title", .str "T"), ("content", .str "C"), ("location", .str "L"),
                       ("time", .str "2024-01-20 14:00"), ("requirements", .str "R")])])
      rfl rfl with
   | ⟨text, span, pd, hx, hspan, hj, hv, _⟩ =>
     ⟨text, span, pd, hx, hspan, hj, by simp at hv; exact hv.1.symm⟩⟩

set_option maxRecDepth 100000 in
/-- Counterexample to C2 as stated: the model answers `{"title":true}`, and the
200 response has the boolean `true`, not a string, as its `title`. -/
theorem boolean_title_passed_through :
    (handler flagAnswerHost imageRequest).response =
      { headers := corsHeaders, status := 200,
        body := .json (.obj [("success", .bool true),
          ("data", .obj [("title", .bool true), ("content", .str ""), ("location", .str ""),
                         ("time", .str ""), ("requirements", .str "")])]) } ∧
    (JSValue.bool true).isString = false :=
  ⟨rfl, rfl⟩

/-! ## Extraction of the text -/

/-- Over items none of which is null or undefined, the loop returns the `text`
of the first item whose `text` is truthy, and `''` when there is none. -/
theorem firstText_of_items (h : Host) (items : List JSValue)
    (hitems : ∀ item ∈ items, item.isNullish = false) :
    firstText h items =
      .ok (((items.find? fun item => truthy (ownProp item "text")).map
        fun item => ownProp item "text").getD (.str "")) := by
  induction items with
  | nil => rfl
  | cons item rest ih =>
    have hitem : getProp h item "text" = .ok (ownProp item "text") := by
      have := hitems item (by simp)
      cases item <;> first | rfl | simp [JSValue.isNullish] at this
    have hrest := ih fun i hi => hitems i (by simp [hi])
    unfold firstText
    rw [hitem]
    cases ht : truthy (ownProp item "text") with
    | true => simp [List.find?, ht]
    | false => simp [List.find?, ht, hrest]

/-- When lines 82–99 leave a falsy value in `extractedText`, the response is the
500 of the extraction error. -/
theorem nothing_extracted (h : Host) (req : Request) (apiKey : String) (status : Nat)
    (body : String) (resultData extracted : JSValue) (hp : req.method = "POST")
    (hi : truthy (ownProp req.body "image") = true)
    (hk : h.apiKey = some apiKey) (hne : apiKey ≠ "")
    (hf : h.fetch (upstreamRequest apiKey (ownProp req.body "image")) = .responded status body)
    (hok : statusOk status = true) (hj : h.jsonParse body = .ok resultData)
    (he : extractText h resultData = .ok extracted) (ht : truthy extracted = false) :
    (handler h req).response =
      { headers := corsHeaders, status := 500,
        body := .json (.obj [("success", .bool false),
          ("error", .str "处理失败: AI处理失败：无法提取信息")]) } := by
  rw [handler_post h req hp]
  simp only [tryBlock, destructureImage_of_truthy h hi, hi, hk, hne, hf, afterFetch, hok, hj, he,
    ht]
  rfl

/-- Claim C10, at two upstream answers with status 200.  With the body
`{"output":{"choices":[{"message":{"content":[null]}}]}}` the path is
present and no item has a text, and with the body `null` the path is absent at
its first step; in both the handler answers with the message of a `TypeError`,
not with `'处理失败: AI处理失败：无法提取信息'`. -/
theorem null_item_and_null_body :
    (handler nullItemHost imageRequest).response =
      { headers := corsHeaders, status := 500,
        body := .json (.obj [("success", .bool false),
          ("error", .str "处理失败: Cannot read properties of null (reading 'text')")]) } ∧
    (handler nullBodyHost imageRequest).response =
      { headers := corsHeaders, status := 500,
        body := .json (.obj [("success", .bool false),
          ("error", .str "处理失败: Cannot read properties of null (reading 'output')")]) } ∧
    "处理失败: Cannot read properties of null (reading 'text')" ≠
      "处理失败: AI处理失败：无法提取信息" ∧
    "处理失败: Cannot read properties of null (reading 'output')" ≠
      "处理失败: AI处理失败：无法提取信息" :=
  ⟨rfl, rfl, by decide, by decide⟩

end AliyunTodo
